import Mathlib

/-!
Verification of the agentscope model-wrapper / agent-reply core.

This file shallowly embeds the Python source under scrutiny:
  * `examples/conversation_sql/conversation_sql.py` (SQLAgent),
  * `examples/converstation_with_codeact_agent/codeact_agent.py` (CodeActAgent),
  * `src/agentscope/models/dashscope_model.py` (DashScope wrappers),
  * `src/agentscope/models/zhipu_model.py` (ZhipuAI wrappers),
and proves the stated behavioural properties about the embedding.

Python strings are modelled by Lean `String`; the Python string methods
used by the source (`strip`, `split`, `replace`, `startswith`, `join`)
are modelled by executable functions on the character list, so that the
kernel can evaluate them on concrete inputs.  Python exceptions are
modelled by `Except`; observable side effects (provider requests,
monitor updates, invocation records, yielded stream chunks) by explicit
event lists.
-/

namespace Agentscope

/-! ### Python string primitives (character-list models) -/

/-- Characters of `l` strictly before the first occurrence of the
(non-empty) pattern `pat`; all of `l` when `pat` does not occur.
This is Python `l.split(pat)[0]`. -/
def takeBefore (pat : List Char) : List Char → List Char
  | [] => []
  | c :: rest =>
    if pat.isPrefixOf (c :: rest) then [] else c :: takeBefore pat rest

/-- Python `str.replace(a, b)` for a one-character pattern and a
one-character replacement (the only form the source uses:
`sql.replace("\n", " ")`). -/
def pyReplaceChar (s : String) (a b : Char) : String :=
  ⟨s.data.map (fun c => if c = a then b else c)⟩

/-- Python `str.strip()`: drop leading and trailing whitespace. -/
def pyStrip (s : String) : String :=
  ⟨((s.data.dropWhile Char.isWhitespace).reverse.dropWhile
      Char.isWhitespace).reverse⟩

/-- Helper for `pySplitWs`: accumulate the current word (reversed). -/
def splitWsAux : List Char → List Char → List (List Char)
  | [], cur => if cur.isEmpty then [] else [cur.reverse]
  | c :: rest, cur =>
    if c.isWhitespace then
      if cur.isEmpty then splitWsAux rest []
      else cur.reverse :: splitWsAux rest []
    else splitWsAux rest (c :: cur)

/-- Python `str.split()` with no separator: split on runs of whitespace,
dropping empty pieces. -/
def pySplitWs (s : String) : List String :=
  (splitWsAux s.data []).map (⟨·⟩)

/-- Python `str.startswith(p)`. -/
def pyStartsWith (s p : String) : Bool :=
  p.data.isPrefixOf s.data

/-- Python `sep.join(xs)`. -/
def pyJoin (sep : String) (xs : List String) : String :=
  ⟨List.intercalate sep.data (xs.map String.data)⟩

/-! ### SQLAgent — `examples/conversation_sql/conversation_sql.py` -/

/-- `process_duplication` (lines 18-23): `sql.strip().split("/*")[0]` —
strip whitespace, keep the part before the first `/*` delimiter. -/
def process_duplication (sql : String) : String :=
  ⟨takeBefore "/*".data (pyStrip sql).data⟩

/-- The post-processing of the model text inside
`SQLAgent.get_response_from_prompt` (lines 54-68): whitespace
normalisation `" ".join(sql.replace("\n", " ").split())`, duplicate
removal, then the three-way SELECT prefix rule. -/
def get_response_from_prompt (text : String) : String :=
  let sql := pyJoin " " (pySplitWs (pyReplaceChar text '\n' ' '))
  let sql := process_duplication sql
  if pyStartsWith sql "SELECT" then sql ++ "\n"
  else if pyStartsWith sql " " then "SELECT" ++ sql ++ "\n"
  else "SELECT " ++ sql ++ "\n"

/-! ### Messages and the chat formatters

`Msg` models `agentscope.message.Msg` restricted to the fields the
formatters read (`name`, `role`, `content`); contents are strings, on
which `_convert_to_str` is the identity. -/

structure Msg where
  name : String
  role : String
  content : String
deriving DecidableEq

/-- One entry of the provider request produced by a chat `format`:
a Python dict `{"role": ..., "content": ...}`. -/
structure ChatEntry where
  role : String
  content : String
deriving DecidableEq

/-- The `for i, unit in enumerate(input_msgs)` loop shared by
`DashScopeChatWrapper.format` (dashscope_model.py lines 392-405) and
`ZhipuAIChatWrapper.format` (zhipu_model.py lines 226-239): the first
message, when it has role `"system"`, becomes a system entry; every
other message becomes the dialogue line `f"{unit.name}: {unit.content}"`.
Returns (`messages`, `dialogue`). -/
def formatLoop : Nat → List Msg → List ChatEntry × List String
  | _, [] => ([], [])
  | i, unit :: rest =>
    let (ms, ds) := formatLoop (i + 1) rest
    if i = 0 ∧ unit.role = "system" then
      (⟨unit.role, unit.content⟩ :: ms, ds)
    else
      (ms, (unit.name ++ ": " ++ unit.content) :: ds)

/-- `DashScopeChatWrapper.format` (dashscope_model.py lines 372-420),
after the `*args` flattening: optional leading system entry, then one
`"user"` entry holding the `"## Dialogue History"` header and the
newline-joined dialogue lines. -/
def dashscopeFormat (input_msgs : List Msg) : List ChatEntry :=
  let (messages, dialogue) := formatLoop 0 input_msgs
  let dialogue_history := pyJoin "\n" dialogue
  messages ++ [⟨"user", "## Dialogue History\n" ++ dialogue_history⟩]

/-- `ZhipuAIChatWrapper.format` (zhipu_model.py lines 204-254), after the
`*args` flattening; the loop and templates are the same as DashScope's. -/
def zhipuFormat (input_msgs : List Msg) : List ChatEntry :=
  let (messages, dialogue) := formatLoop 0 input_msgs
  let dialogue_history := pyJoin "\n" dialogue
  messages ++ [⟨"user", "## Dialogue History\n" ++ dialogue_history⟩]

/-- The dialogue line of one message. -/
def dialogueLine (m : Msg) : String := m.name ++ ": " ++ m.content

theorem formatLoop_pos (i : Nat) (hi : i ≠ 0) (msgs : List Msg) :
    formatLoop i msgs = ([], msgs.map dialogueLine) := by
  induction msgs generalizing i with
  | nil => simp [formatLoop]
  | cons unit rest ih =>
    simp only [formatLoop, ih (i + 1) (Nat.succ_ne_zero i)]
    simp [hi, dialogueLine]

theorem dashscopeFormat_system_cons (sys : Msg) (rest : List Msg)
    (h : sys.role = "system") :
    dashscopeFormat (sys :: rest) =
      [⟨"system", sys.content⟩,
       ⟨"user", "## Dialogue History\n" ++ pyJoin "\n" (rest.map dialogueLine)⟩] := by
  simp [dashscopeFormat, formatLoop, formatLoop_pos 1 one_ne_zero, h]

theorem zhipuFormat_eq_dashscopeFormat (msgs : List Msg) :
    zhipuFormat msgs = dashscopeFormat msgs := rfl

/-! ### DashScope chat call — streaming generator

`DashScopeChatWrapper.__call__` with `stream=True` wraps the provider
response in a generator (dashscope_model.py lines 237-261).  A provider
stream is modelled as the list of chunks it delivers; the generator's
observable behaviour is the list of events it produces (yields and the
end-of-stream `_save_model_invocation_and_update_monitor` call) together
with its final fate (normal return of the patched last chunk, or a
Python exception). -/

/-- `HTTPStatus.OK`. -/
def httpOK : Nat := 200

/-- One chunk of a DashScope streaming response: HTTP status, the error
fields read on failure, and the incremental text
`chunk.output["choices"][0]["message"]["content"]`. -/
structure DSChunk where
  status_code : Nat
  request_id : String
  code : String
  message : String
  content : String
deriving DecidableEq

/-- Observable events of the streaming generator. -/
inductive StreamEvent
  /-- `yield text` of the cumulative text so far. -/
  | yield (text : String)
  /-- the end-of-stream `_save_model_invocation_and_update_monitor` call
  (usage-metric update plus invocation record). -/
  | saveAndMonitor
deriving DecidableEq

/-- Python exceptions raised by the embedded code. -/
inductive PyError
  /-- `raise RuntimeError(error_msg)` -/
  | runtimeError (msg : String)
  /-- `raise ValueError(...)` -/
  | valueError (msg : String)
  /-- attribute/item access on `None` (e.g. `last_chunk.output` when
  `last_chunk is None`) -/
  | noneTypeError
  /-- reference to a local variable that was never assigned -/
  | unboundLocalError
  /-- `TypeError`, e.g. indexing a Python list with a string key -/
  | typeError
  /-- a failed `assert` -/
  | assertionError
deriving DecidableEq

/-- The `raise RuntimeError` message of the streaming branch
(dashscope_model.py lines 242-247). -/
def dsStreamErrorMsg (c : DSChunk) : String :=
  "Request id: " ++ c.request_id ++ "\n" ++
  "Status code: " ++ toString c.status_code ++ "\n" ++
  "Error code: " ++ c.code ++ "\n" ++
  "Error message: " ++ c.message

/-- The body of `generator()` (dashscope_model.py lines 237-261): state is
the remaining chunks, the accumulated `text`, and `last_chunk`.  After the
`for` loop, the last chunk's content is patched to the full text and the
save/monitor bookkeeping runs once; with no last chunk that patch
dereferences `None`. -/
def genLoop : List DSChunk → String → Option DSChunk →
    List StreamEvent × Except PyError DSChunk
  | [], text, last =>
    match last with
    | none => ([], .error .noneTypeError)
    | some c => ([.saveAndMonitor], .ok { c with content := text })
  | chunk :: rest, text, _last =>
    if chunk.status_code ≠ httpOK then
      ([], .error (.runtimeError (dsStreamErrorMsg chunk)))
    else
      let text' := text ++ chunk.content
      let (evs, r) := genLoop rest text' (some chunk)
      (.yield text' :: evs, r)

/-- Draining to exhaustion the generator returned (inside the
`ModelResponse.stream` field) by a streaming `DashScopeChatWrapper`
call whose provider stream delivers `chunks`. -/
def dashscopeStreamGenerator (chunks : List DSChunk) :
    List StreamEvent × Except PyError DSChunk :=
  genLoop chunks "" none

/-- Specification-side list of cumulative concatenations: entry `i` is
`acc` followed by the first `i+1` texts. -/
def cumTexts (acc : String) : List String → List String
  | [] => []
  | s :: rest => (acc ++ s) :: cumTexts (acc ++ s) rest

theorem genLoop_some (chunks : List DSChunk) :
    ∀ (acc : String) (c0 : DSChunk),
      (∀ c ∈ chunks, c.status_code = httpOK) →
      genLoop chunks acc (some c0) =
        ((cumTexts acc (chunks.map (·.content))).map StreamEvent.yield
            ++ [StreamEvent.saveAndMonitor],
         .ok { chunks.getLastD c0 with
                content := (cumTexts acc (chunks.map (·.content))).getLastD acc }) := by
  induction chunks with
  | nil => intro acc c0 _; simp [genLoop, cumTexts]
  | cons chunk rest ih =>
    intro acc c0 hok
    have hchunk : chunk.status_code = httpOK := hok chunk (List.mem_cons_self _ _)
    have hrest : ∀ c ∈ rest, c.status_code = httpOK :=
      fun c hc => hok c (List.mem_cons_of_mem _ hc)
    simp only [genLoop, hchunk, ne_eq, not_true_eq_false, if_false,
      ih (acc ++ chunk.content) chunk hrest, List.map_cons]
    rw [show cumTexts acc (chunk.content :: rest.map (·.content)) =
          (acc ++ chunk.content) ::
            cumTexts (acc ++ chunk.content) (rest.map (·.content)) from rfl,
        List.getLastD_cons, List.getLastD_cons]
    simp

/-- Plain concatenation of a list of strings (the "fully assembled
text"). -/
def concatAll : List String → String
  | [] => ""
  | s :: rest => s ++ concatAll rest

theorem cumTexts_getLastD (l : List String) :
    ∀ acc : String, (cumTexts acc l).getLastD acc = acc ++ concatAll l := by
  induction l with
  | nil => intro acc; simp [cumTexts, concatAll]
  | cons s rest ih =>
    intro acc
    rw [show cumTexts acc (s :: rest) = (acc ++ s) :: cumTexts (acc ++ s) rest from rfl,
        List.getLastD_cons, ih (acc ++ s), concatAll]
    simp [String.append_assoc]

/-! ### Chat calls — validation and the non-streaming branch

`DashScopeChatWrapper.__call__` (dashscope_model.py lines 198-288) and
`ZhipuAIChatWrapper.__call__` (zhipu_model.py lines 137-178) both check
the `messages` argument before issuing the provider request.  The
argument is modelled up to what the check reads: either it is not a
Python list, or it is a list of dicts, each dict modelled by its key
set (`"role" in msg` / `"content" in msg`). -/

/-- A Python dict, modelled by its key set. -/
structure PyDict where
  keys : List String
deriving DecidableEq

/-- The `messages` argument of a chat wrapper call. -/
inductive MessagesArg
  | notAList
  | ofList (msgs : List PyDict)
deriving DecidableEq

/-- `"role" in msg and "content" in msg` for one element. -/
def hasRoleAndContent (d : PyDict) : Bool :=
  d.keys.contains "role" && d.keys.contains "content"

/-- The validation step shared by both chat wrappers
(dashscope_model.py lines 202-212, zhipu_model.py lines 142-152):
`none` when the argument passes, otherwise the `ValueError` raised. -/
def checkMessages (messages : MessagesArg) (provider : String) : Option PyError :=
  match messages with
  | .notAList =>
    some (.valueError (provider ++ " `messages` field expected type `list`, got another type instead."))
  | .ofList msgs =>
    if !msgs.all hasRoleAndContent then
      some (.valueError ("Each message in the 'messages' list must contain a 'role' " ++
        "and 'content' key for " ++ provider ++ " API."))
    else
      none

/-- Observable side effects of a (non-streaming) chat/embedding call. -/
inductive CallEvent
  /-- the single blocking provider request -/
  | providerRequest
  /-- `update_monitor(call_counter=1, prompt_tokens=..., completion_tokens=...,
  total_tokens=...)` -/
  | monitorUpdate (call_counter prompt_tokens completion_tokens total_tokens : Nat)
  /-- `_save_model_invocation(...)` -/
  | saveInvocation
deriving DecidableEq

/-- A non-streaming DashScope `Generation.call` response: HTTP status,
the error fields read on failure, the text
`response.output["choices"][0]["message"]["content"]`, and the usage
token counts. -/
structure DSResponse where
  status_code : Nat
  request_id : String
  code : String
  message : String
  text : String
  input_tokens : Nat
  output_tokens : Nat
deriving DecidableEq

/-- The `raise RuntimeError` message of the non-streaming branch
(dashscope_model.py lines 270-275). -/
def dsCallErrorMsg (r : DSResponse) : String :=
  "Request id: " ++ r.request_id ++ ",\n" ++
  "Status code: " ++ toString r.status_code ++ ",\n" ++
  "Error code: " ++ r.code ++ ",\n" ++
  "Error message: " ++ r.message ++ "."

/-- `DashScopeChatWrapper.__call__` with `stream=False`
(dashscope_model.py lines 198-288, non-streaming branch), against a
provider that would answer `resp`: validation, then the request; on a
non-OK status the structured `RuntimeError` with no bookkeeping; on
success `_save_model_invocation_and_update_monitor` (monitor update
then invocation record, lines 290-318) and the response text. -/
def dashscopeChatCall (messages : MessagesArg) (resp : DSResponse) :
    List CallEvent × Except PyError String :=
  match checkMessages messages "Dashscope" with
  | some e => ([], .error e)
  | none =>
    if resp.status_code ≠ httpOK then
      ([.providerRequest], .error (.runtimeError (dsCallErrorMsg resp)))
    else
      ([.providerRequest,
        .monitorUpdate 1 resp.input_tokens resp.output_tokens
          (resp.input_tokens + resp.output_tokens),
        .saveInvocation],
       .ok resp.text)

/-- A ZhipuAI chat response: the text `response.choices[0].message.content`
and the usage fields of `response.usage.model_dump()`. -/
structure ZhipuResponse where
  text : String
  prompt_tokens : Nat
  completion_tokens : Nat
  total_tokens : Nat
deriving DecidableEq

/-- `ZhipuAIChatWrapper.__call__` (zhipu_model.py lines 137-178), against
a provider that would answer `resp`: validation, then the request,
invocation record, monitor update, and the response text (this wrapper
has no status check of its own). -/
def zhipuChatCall (messages : MessagesArg) (resp : ZhipuResponse) :
    List CallEvent × Except PyError String :=
  match checkMessages messages "ZhipuAI" with
  | some e => ([], .error e)
  | none =>
    ([.providerRequest, .saveInvocation,
      .monitorUpdate 1 resp.prompt_tokens resp.completion_tokens resp.total_tokens],
     .ok resp.text)

/-- The claim's validity condition on the `messages` argument: it is not
a list, or some element lacks a `"role"` or a `"content"` key. -/
def malformedMessages : MessagesArg → Prop
  | .notAList => True
  | .ofList msgs => ∃ d ∈ msgs, ¬("role" ∈ d.keys ∧ "content" ∈ d.keys)

instance : DecidablePred malformedMessages := by
  intro m
  cases m with
  | notAList => exact .isTrue trivial
  | ofList msgs => exact inferInstanceAs (Decidable (∃ d ∈ msgs, _))

theorem hasRoleAndContent_iff (d : PyDict) :
    hasRoleAndContent d = true ↔ "role" ∈ d.keys ∧ "content" ∈ d.keys := by
  simp [hasRoleAndContent, List.elem_iff]

theorem checkMessages_isSome_iff (messages : MessagesArg) (provider : String) :
    (checkMessages messages provider).isSome ↔ malformedMessages messages := by
  cases messages with
  | notAList => simp [checkMessages, malformedMessages]
  | ofList msgs =>
    simp only [checkMessages, malformedMessages]
    constructor
    · intro hsome
      by_contra hno
      push_neg at hno
      have hall : msgs.all hasRoleAndContent = true := by
        rw [List.all_eq_true]
        intro d hd
        rw [hasRoleAndContent_iff]
        exact hno d hd
      simp [hall] at hsome
    · rintro ⟨d, hd, hnd⟩
      have hall : msgs.all hasRoleAndContent = false := by
        by_contra htr
        rw [Bool.not_eq_false, List.all_eq_true] at htr
        exact hnd ((hasRoleAndContent_iff d).mp (htr d hd))
      simp [hall]

/-! ### Embedding wrappers -/

/-- One element of an embedding response's vector list: a dict holding an
`"embedding"` vector (components modelled as integers; their numeric
type is irrelevant to the wrappers, which only move them around). -/
structure EmbeddingItem where
  embedding : List Int
deriving DecidableEq

/-- A DashScope `TextEmbedding.call` response: HTTP status, error fields,
and `response.output["embeddings"]`. -/
structure DSEmbResponse where
  status_code : Nat
  request_id : String
  code : String
  message : String
  embeddings : List EmbeddingItem
deriving DecidableEq

/-- `DashScopeTextEmbeddingWrapper.__call__` (dashscope_model.py lines
542-615), result part: fail-fast on a non-OK status, otherwise the
`ModelResponse.embedding` field
`[_["embedding"] for _ in response.output["embeddings"]]`. -/
def dashscopeTextEmbeddingCall (resp : DSEmbResponse) :
    Except PyError (List (List Int)) :=
  if resp.status_code ≠ httpOK then
    .error (.runtimeError
      (" Request id: " ++ resp.request_id ++ "," ++
       " Status code: " ++ toString resp.status_code ++ "," ++
       " error code: " ++ resp.code ++ "," ++
       " error message: " ++ resp.message ++ "."))
  else
    .ok (resp.embeddings.map (·.embedding))

/-- `ZhipuAIEmbeddingWrapper.__call__` (zhipu_model.py lines 262-329),
result part, from `response_json["data"]`: the branch
`if len(response_json["data"]) == 0` evaluates
`response_json["data"]["embedding"]` — indexing a Python list with a
string key, a `TypeError`; otherwise the embedding field is
`[_["embedding"] for _ in response_json["data"]]`. -/
def zhipuEmbeddingCall (data : List EmbeddingItem) :
    Except PyError (List (List Int)) :=
  if data.length = 0 then
    .error .typeError
  else
    .ok (data.map (·.embedding))

/-! ### SQLAgent.reply — bounded retry around the SQL side effect

`SQLAgent.reply` (conversation_sql.py lines 95-156), for an in-domain
(SQL-classified) request.  One loop iteration runs
`get_response_from_prompt` → `query_sqlite` → `answer_from_result`;
any exception is caught, a warning is printed, and `attempt` is
incremented.  The whole iteration is abstracted as
`attemptFn : Nat → Except Unit String`, giving for each attempt index
either the composed response text or an exception. -/

/-- The `while attempt < self.max_retries` loop (lines 123-148), from
the current `attempt` counter, with `remaining = max_retries - attempt`
iterations allowed.  Returns the final `attempt`-loop observation:
the number of attempts actually performed and the `result` local
(`none` exactly when every attempt raised). -/
def sqlRetryLoop (attemptFn : Nat → Except Unit String) :
    Nat → Nat → Nat × Option String
  | 0, performed => (performed, none)
  | remaining + 1, performed =>
    match attemptFn performed with
    | .ok text => (performed + 1, some text)
    | .error _ => sqlRetryLoop attemptFn remaining (performed + 1)

/-- Observable outcome of the in-domain path of `SQLAgent.reply`. -/
structure SQLReplyOutcome where
  /-- how many times the side effect (SQL generation + query) ran -/
  attempts : Nat
  /-- whether the fixed `"Sorry, the agent failed to execute query
  after 3 attempts"` fallback notice was printed (lines 150-155) -/
  fallback_printed : Bool
  /-- the final `return msg` (line 156): the reply message, or the
  exception it raises — `msg` is a local assigned only inside the
  `try` body, so after three failed attempts it was never assigned
  and `return msg` raises `UnboundLocalError` -/
  returned : Except PyError Msg

/-- `SQLAgent.reply` from line 121 on (the in-domain branch, after
`is_question_related` answered `"yes"`), with `max_retries` as set in
`__init__` (line 44: 3). -/
def sqlAgentReplyInDomain (attemptFn : Nat → Except Unit String)
    (max_retries : Nat) (name : String) : SQLReplyOutcome :=
  let (attempts, result) := sqlRetryLoop attemptFn max_retries 0
  { attempts := attempts
    fallback_printed := result.isNone
    returned :=
      match result with
      | some text => .ok { name := name, role := "sql assistant", content := text }
      | none => .error .unboundLocalError }

/-- `self.max_retries = 3` (conversation_sql.py line 44). -/
def sql_max_retries : Nat := 3

/-! ### CodeActAgent — `examples/converstation_with_codeact_agent/codeact_agent.py` -/

/-- Index of the first occurrence of the non-empty pattern `pat` in a
character list. -/
def findSub (pat : List Char) : List Char → Option Nat
  | [] => none
  | c :: rest =>
    if pat.isPrefixOf (c :: rest) then some 0
    else (findSub pat rest).map (· + 1)

/-- Index of the last occurrence of the non-empty pattern `pat` in a
character list. -/
def rfindSub (pat : List Char) : List Char → Option Nat
  | [] => none
  | c :: rest =>
    match rfindSub pat rest with
    | some i => some (i + 1)
    | none => if pat.isPrefixOf (c :: rest) then some 0 else none

/-- The extraction step of `CodeActAgent.handle_code_execution`
(codeact_agent.py lines 85-91):
`re.search(r"\[execute\](.*)\[/execute\]", response_text, re.DOTALL)`
followed by `.group(1).strip()`.  With `re.DOTALL` and a greedy `(.*)`,
the match runs from the first `[execute]` to the last `[/execute]`
after it (the first open tag with any close tag after it is the first
open tag overall whenever a match exists at all). -/
def extractExecuteBlock (s : String) : Option String :=
  match findSub "[execute]".data s.data with
  | none => none
  | some i =>
    let after := s.data.drop (i + "[execute]".data.length)
    match rfindSub "[/execute]".data after with
    | none => none
    | some j => some (pyStrip ⟨after.take j⟩)

/-- `agentscope.service.ServiceResponse` as the agent reads it:
whether `status == ServiceExecStatus.SUCCESS`, and `content`. -/
structure ServiceResponse where
  success : Bool
  content : String
deriving DecidableEq

/-- `CodeActAgent.handle_code_result` (codeact_agent.py lines 96-110). -/
def handle_code_result (r : ServiceResponse) (content_pre_sring : String) : Msg :=
  let code_exec_content := content_pre_sring ++
    (if r.success then "Excution Successful:\n" else "Excution Failed:\n")
  let code_exec_content := code_exec_content ++ "Execution Output:\n" ++ r.content
  { name := "user", role := "user", content := code_exec_content }

/-- `self.memory.get_memory(1)[-1].role`. -/
def lastRole (memory : List Msg) : Option String :=
  memory.getLast?.map (·.role)

/-- The `while` loop of `CodeActAgent.reply` (codeact_agent.py lines
118-137).  `model` maps the current memory (through `self.model.format`)
to the model text; `exec` is `run_code_on_notebook`.  The state is
`(memory, excution_count, model_calls)`, where `model_calls` counts the
`self.model(prompt)` invocations.  The loop is written with explicit
fuel; since an iteration that performs no execution leaves an
assistant-role message last (so the condition fails at the next check),
the Python loop always exits within `n_max + 1` iterations, and any
fuel above that is never consumed. -/
def codeactLoop (model : List Msg → String) (exec : String → ServiceResponse)
    (agentName : String) (n_max : Nat) :
    Nat → List Msg → Nat → Nat → List Msg × Nat × Nat
  | 0, memory, count, calls => (memory, count, calls)
  | fuel + 1, memory, count, calls =>
    if lastRole memory = some "user" ∧ count < n_max then
      let text := model memory
      let memory' := memory ++ [{ name := agentName, role := "assistant", content := text }]
      match extractExecuteBlock text with
      | some code =>
        let memory'' := memory' ++ [handle_code_result (exec code) ""]
        codeactLoop model exec agentName n_max fuel memory'' (count + 1) (calls + 1)
      | none => codeactLoop model exec agentName n_max fuel memory' count (calls + 1)
    else (memory, count, calls)

/-- `self.n_max_executions = 5` (codeact_agent.py line 54). -/
def codeact_n_max_executions : Nat := 5

/-- The fixed maximum-executions notice (codeact_agent.py lines 141-149);
`f"({self.n_max_executions=})"` renders as
`"(self.n_max_executions=5)"`, and the name field carries the source's
spelling. -/
def codeact_max_exec_msg : Msg :=
  { name := "assitant", role := "assistant",
    content := "I have reached the maximum number of executions (self.n_max_executions=5). Can you assist me or ask me another question?" }

/-- `CodeActAgent.reply` (codeact_agent.py lines 112-151) for an agent
constructed with the default `example_code=""` (so `__init__` put just
the system message into memory; the text of `SYSTEM_MESSAGE` plays no
role in control flow and is the parameter `sysContent`).  After the
loop, when the ceiling was reached, the `assert` of line 140 runs and
the fixed notice is appended. -/
def codeact_reply (model : List Msg → String) (exec : String → ServiceResponse)
    (agentName : String) (sysContent : String) (x : Msg) :
    Except PyError (List Msg × Nat × Nat) :=
  let memory := [{ name := "system", role := "system", content := sysContent }, x]
  let res := codeactLoop model exec agentName codeact_n_max_executions
    (codeact_n_max_executions + 2) memory 0 0
  let memory := res.1
  let count := res.2.1
  let calls := res.2.2
  if count = codeact_n_max_executions then
    if lastRole memory = some "user" then
      .ok (memory ++ [codeact_max_exec_msg], count, calls)
    else .error .assertionError
  else .ok (memory, count, calls)

theorem codeactLoop_always_exec
    (model : List Msg → String) (exec : String → ServiceResponse) (agentName : String)
    (hm : ∀ mem, (extractExecuteBlock (model mem)).isSome) :
    ∀ (fuel : Nat) (memory : List Msg) (count calls : Nat),
      count ≤ 5 → 5 - count ≤ fuel → lastRole memory = some "user" →
      ∃ mem', codeactLoop model exec agentName 5 fuel memory count calls =
          (mem', 5, calls + (5 - count)) ∧ lastRole mem' = some "user" := by
  intro fuel
  induction fuel with
  | zero =>
    intro memory count calls hc hf hl
    have hc5 : count = 5 := by omega
    subst hc5
    exact ⟨memory, rfl, hl⟩
  | succ fuel ih =>
    intro memory count calls hc hf hl
    by_cases hcount : count < 5
    · obtain ⟨code, hcode⟩ := Option.isSome_iff_exists.mp (hm memory)
      have hl' : lastRole
          ((memory ++ [{ name := agentName, role := "assistant", content := model memory }]) ++
            [handle_code_result (exec code) ""]) = some "user" := by
        simp [lastRole, List.getLast?_concat, handle_code_result]
      obtain ⟨mem', heq, hlast⟩ :=
        ih ((memory ++ [{ name := agentName, role := "assistant", content := model memory }]) ++
              [handle_code_result (exec code) ""])
           (count + 1) (calls + 1) (by omega) (by omega) hl'
      refine ⟨mem', ?_, hlast⟩
      simp only [codeactLoop, if_pos (And.intro hl hcount), hcode, heq]
      have : calls + 1 + (5 - (count + 1)) = calls + (5 - count) := by omega
      rw [this]
    · have hc5 : count = 5 := by omega
      subst hc5
      refine ⟨memory, ?_, hl⟩
      simp only [codeactLoop]
      rw [if_neg (fun h => hcount h.2)]
      norm_num

theorem checkMessages_valueError (m : MessagesArg) (p : String) (e : PyError)
    (h : checkMessages m p = some e) : ∃ s, e = .valueError s := by
  cases m with
  | notAList =>
    simp only [checkMessages] at h
    exact ⟨_, (Option.some_inj.mp h).symm⟩
  | ofList msgs =>
    simp only [checkMessages] at h
    split at h
    · exact ⟨_, (Option.some_inj.mp h).symm⟩
    · exact absurd h (by simp)

theorem dashscopeFormat_no_system (msgs : List Msg)
    (h : ∀ m ∈ msgs.head?, m.role ≠ "system") :
    dashscopeFormat msgs =
      [⟨"user", "## Dialogue History\n" ++ pyJoin "\n" (msgs.map dialogueLine)⟩] := by
  cases msgs with
  | nil => rfl
  | cons m rest =>
    have hm : m.role ≠ "system" := h m (by simp)
    simp [dashscopeFormat, formatLoop, formatLoop_pos 1 one_ne_zero, hm, dialogueLine]

/-! ### Claim theorems -/

/-- C4.  The SQL-prefix correction of the generating step: model output
`"id FROM singer"` yields `"SELECT id FROM singer\n"`, `" id FROM
singer"` (leading space) yields the same, and `"SELECT id FROM singer"`
is kept with the keyword unchanged and only a newline appended. -/
theorem sql_prefix_correction :
    get_response_from_prompt "id FROM singer" = "SELECT id FROM singer\n"
    ∧ get_response_from_prompt " id FROM singer" = "SELECT id FROM singer\n"
    ∧ get_response_from_prompt "SELECT id FROM singer" = "SELECT id FROM singer\n" := by
  refine ⟨by decide, by decide, by decide⟩

/-- C3.  For every non-empty message sequence whose first message has
role `"system"`, both chat formatters (DashScope and ZhipuAI) return
exactly two entries: a system entry carrying the system message's
content, then a single `role="user"` entry whose content is the
`"## Dialogue History"` header followed by every subsequent message as
`"{name}: {content}"` lines joined by newline, in order. -/
theorem chat_format_system_head (sys : Msg) (rest : List Msg)
    (h : sys.role = "system") :
    dashscopeFormat (sys :: rest) =
      [⟨"system", sys.content⟩,
       ⟨"user", "## Dialogue History\n" ++ pyJoin "\n" (rest.map dialogueLine)⟩]
    ∧ zhipuFormat (sys :: rest) =
      [⟨"system", sys.content⟩,
       ⟨"user", "## Dialogue History\n" ++ pyJoin "\n" (rest.map dialogueLine)⟩] :=
  ⟨dashscopeFormat_system_cons sys rest h,
   (zhipuFormat_eq_dashscopeFormat (sys :: rest)).trans
     (dashscopeFormat_system_cons sys rest h)⟩

theorem chat_format_system_head_witness :
    dashscopeFormat
      [⟨"system", "system", "You are a helpful assistant"⟩, ⟨"Bob", "assistant", "Hi"⟩] =
      [⟨"system", "You are a helpful assistant"⟩,
       ⟨"user", "## Dialogue History\n" ++
          pyJoin "\n" ([(⟨"Bob", "assistant", "Hi"⟩ : Msg)].map dialogueLine)⟩]
    ∧ zhipuFormat
      [⟨"system", "system", "You are a helpful assistant"⟩, ⟨"Bob", "assistant", "Hi"⟩] =
      [⟨"system", "You are a helpful assistant"⟩,
       ⟨"user", "## Dialogue History\n" ++
          pyJoin "\n" ([(⟨"Bob", "assistant", "Hi"⟩ : Msg)].map dialogueLine)⟩] :=
  chat_format_system_head ⟨"system", "system", "You are a helpful assistant"⟩
    [⟨"Bob", "assistant", "Hi"⟩] rfl

/-- C9.  For every message sequence with no leading system message
(including the empty sequence), each chat formatter emits exactly one
entry, and that entry has role `"user"`. -/
theorem chat_format_no_system_single_user (msgs : List Msg)
    (h : ∀ m ∈ msgs.head?, m.role ≠ "system") :
    (dashscopeFormat msgs).length = 1
    ∧ (∀ e ∈ dashscopeFormat msgs, e.role = "user")
    ∧ (zhipuFormat msgs).length = 1
    ∧ (∀ e ∈ zhipuFormat msgs, e.role = "user") := by
  have hd := dashscopeFormat_no_system msgs h
  have hz := (zhipuFormat_eq_dashscopeFormat msgs).trans hd
  refine ⟨by rw [hd]; rfl, ?_, by rw [hz]; rfl, ?_⟩
  · intro e he
    rw [hd] at he
    simpa using congrArg ChatEntry.role (List.mem_singleton.mp he)
  · intro e he
    rw [hz] at he
    simpa using congrArg ChatEntry.role (List.mem_singleton.mp he)

theorem chat_format_no_system_single_user_witness :
    (dashscopeFormat []).length = 1
    ∧ (∀ e ∈ dashscopeFormat [], e.role = "user")
    ∧ (zhipuFormat []).length = 1
    ∧ (∀ e ∈ zhipuFormat [], e.role = "user") :=
  chat_format_no_system_single_user [] (by simp)

/-- C2.  For every streaming chat call consumed to exhaustion (a
non-empty, all-OK provider stream): the yielded chunks are exactly the
cumulative texts so far (`cumTexts`, not deltas); the single
save/monitor side effect fires exactly once, strictly after the last
yield; the generator finishes by patching the last chunk's content to
the fully assembled text (the plain concatenation of all deltas); and
the last yielded snapshot equals that fully assembled text. -/
theorem dashscope_stream_cumulative (c : DSChunk) (rest : List DSChunk)
    (hok : ∀ ch ∈ c :: rest, ch.status_code = httpOK) :
    dashscopeStreamGenerator (c :: rest) =
      ((cumTexts "" ((c :: rest).map (·.content))).map StreamEvent.yield
          ++ [StreamEvent.saveAndMonitor],
       .ok { (c :: rest).getLastD c with
              content := concatAll ((c :: rest).map (·.content)) })
    ∧ (cumTexts "" ((c :: rest).map (·.content))).getLastD ""
        = concatAll ((c :: rest).map (·.content)) := by
  have hc : c.status_code = httpOK := hok c (List.mem_cons_self _ _)
  have hrest : ∀ ch ∈ rest, ch.status_code = httpOK :=
    fun ch hch => hok ch (List.mem_cons_of_mem _ hch)
  have hlast : (cumTexts "" ((c :: rest).map (·.content))).getLastD ""
      = concatAll ((c :: rest).map (·.content)) := by
    rw [cumTexts_getLastD]
    rfl
  refine ⟨?_, hlast⟩
  show genLoop (c :: rest) "" none = _
  simp only [genLoop, hc, ne_eq, not_true_eq_false, if_false,
    genLoop_some rest ("" ++ c.content) c hrest, List.map_cons]
  rw [show cumTexts "" (c.content :: rest.map (·.content)) =
        ("" ++ c.content) :: cumTexts ("" ++ c.content) (rest.map (·.content)) from rfl,
      List.getLastD_cons, cumTexts_getLastD]
  simp [concatAll]

theorem dashscope_stream_cumulative_witness :
    dashscopeStreamGenerator
        [⟨200, "rid", "", "", "Hello "⟩, ⟨200, "rid", "", "", "world"⟩] =
      ((cumTexts ""
          ([(⟨200, "rid", "", "", "Hello "⟩ : DSChunk),
            ⟨200, "rid", "", "", "world"⟩].map (·.content))).map StreamEvent.yield
          ++ [StreamEvent.saveAndMonitor],
       .ok { ([(⟨200, "rid", "", "", "Hello "⟩ : DSChunk),
               ⟨200, "rid", "", "", "world"⟩].getLastD ⟨200, "rid", "", "", "Hello "⟩) with
              content := concatAll
                ([(⟨200, "rid", "", "", "Hello "⟩ : DSChunk),
                  ⟨200, "rid", "", "", "world"⟩].map (·.content)) })
    ∧ (cumTexts ""
        ([(⟨200, "rid", "", "", "Hello "⟩ : DSChunk),
          ⟨200, "rid", "", "", "world"⟩].map (·.content))).getLastD ""
        = concatAll
            ([(⟨200, "rid", "", "", "Hello "⟩ : DSChunk),
              ⟨200, "rid", "", "", "world"⟩].map (·.content)) :=
  dashscope_stream_cumulative ⟨200, "rid", "", "", "Hello "⟩
    [⟨200, "rid", "", "", "world"⟩] (by decide)

/-- C10.  If the provider stream yields zero chunks, draining the
returned generator raises (the end-of-stream finalisation dereferences
`last_chunk`, which is still `None`) instead of terminating cleanly,
and the once-per-stream save/monitor side effect never fires (the
event list is empty). -/
theorem dashscope_stream_empty_raises :
    dashscopeStreamGenerator [] = ([], .error .noneTypeError)
    ∧ StreamEvent.saveAndMonitor ∉ (dashscopeStreamGenerator []).1 := by
  exact ⟨rfl, by simp [dashscopeStreamGenerator, genLoop]⟩

/-- C6.  A chat wrapper call (DashScope and ZhipuAI) raises a
`ValueError` — and issues no provider request, performing no events at
all, hence in particular never retrying the validation — if and only
if the `messages` argument is not a list or some element lacks a
`"role"` or a `"content"` key. -/
theorem chat_call_validation (messages : MessagesArg) (dresp : DSResponse)
    (zresp : ZhipuResponse) :
    (((∃ s, (dashscopeChatCall messages dresp).2 = .error (.valueError s)) ∧
        (dashscopeChatCall messages dresp).1 = []) ↔ malformedMessages messages)
    ∧ (((∃ s, (zhipuChatCall messages zresp).2 = .error (.valueError s)) ∧
        (zhipuChatCall messages zresp).1 = []) ↔ malformedMessages messages) := by
  constructor
  · cases hm : checkMessages messages "Dashscope" with
    | some e =>
      have hmal : malformedMessages messages :=
        (checkMessages_isSome_iff messages "Dashscope").mp (by simp [hm])
      obtain ⟨s, hs⟩ := checkMessages_valueError messages "Dashscope" e hm
      subst hs
      have heq : dashscopeChatCall messages dresp = ([], .error (.valueError s)) := by
        simp [dashscopeChatCall, hm]
      rw [heq]
      exact iff_of_true ⟨⟨s, rfl⟩, rfl⟩ hmal
    | none =>
      have hmal : ¬ malformedMessages messages := by
        rw [← checkMessages_isSome_iff messages "Dashscope", hm]
        simp
      simp only [dashscopeChatCall, hm]
      refine iff_of_false (fun hcon => ?_) hmal
      obtain ⟨⟨s, hs⟩, -⟩ := hcon
      by_cases hst : dresp.status_code ≠ httpOK
      · rw [if_pos hst] at hs
        exact PyError.noConfusion (Except.error.inj hs)
      · rw [if_neg hst] at hs
        exact Except.noConfusion hs
  · cases hm : checkMessages messages "ZhipuAI" with
    | some e =>
      have hmal : malformedMessages messages :=
        (checkMessages_isSome_iff messages "ZhipuAI").mp (by simp [hm])
      obtain ⟨s, hs⟩ := checkMessages_valueError messages "ZhipuAI" e hm
      subst hs
      have heq : zhipuChatCall messages zresp = ([], .error (.valueError s)) := by
        simp [zhipuChatCall, hm]
      rw [heq]
      exact iff_of_true ⟨⟨s, rfl⟩, rfl⟩ hmal
    | none =>
      have hmal : ¬ malformedMessages messages := by
        rw [← checkMessages_isSome_iff messages "ZhipuAI", hm]
        simp
      simp only [zhipuChatCall, hm]
      exact iff_of_false (fun hcon => Except.noConfusion hcon.1.choose_spec) hmal

theorem chat_call_validation_witness :
    (((∃ s, (dashscopeChatCall (.ofList [⟨["content"]⟩]) ⟨200, "", "", "", "ok", 0, 0⟩).2
          = .error (.valueError s)) ∧
        (dashscopeChatCall (.ofList [⟨["content"]⟩]) ⟨200, "", "", "", "ok", 0, 0⟩).1 = [])
      ↔ malformedMessages (.ofList [⟨["content"]⟩]))
    ∧ (((∃ s, (zhipuChatCall (.ofList [⟨["content"]⟩]) ⟨"ok", 0, 0, 0⟩).2
          = .error (.valueError s)) ∧
        (zhipuChatCall (.ofList [⟨["content"]⟩]) ⟨"ok", 0, 0, 0⟩).1 = [])
      ↔ malformedMessages (.ofList [⟨["content"]⟩])) :=
  chat_call_validation (.ofList [⟨["content"]⟩]) ⟨200, "", "", "", "ok", 0, 0⟩ ⟨"ok", 0, 0, 0⟩

/-- C7.  For every non-streaming DashScope chat call with valid messages
whose provider response has a non-success status, the wrapper raises a
`RuntimeError` whose message contains the request id, the status code,
the provider error code and the error message, and neither the monitor
update nor the invocation record happens for that call. -/
theorem dashscope_nonstream_provider_error (messages : MessagesArg)
    (resp : DSResponse)
    (hvalid : checkMessages messages "Dashscope" = none)
    (herr : resp.status_code ≠ httpOK) :
    dashscopeChatCall messages resp =
      ([CallEvent.providerRequest], .error (.runtimeError (dsCallErrorMsg resp)))
    ∧ resp.request_id.data <:+: (dsCallErrorMsg resp).data
    ∧ (toString resp.status_code).data <:+: (dsCallErrorMsg resp).data
    ∧ resp.code.data <:+: (dsCallErrorMsg resp).data
    ∧ resp.message.data <:+: (dsCallErrorMsg resp).data
    ∧ (∀ e ∈ (dashscopeChatCall messages resp).1,
        e ≠ CallEvent.saveInvocation
        ∧ ∀ a b c d, e ≠ CallEvent.monitorUpdate a b c d) := by
  have heq : dashscopeChatCall messages resp =
      ([CallEvent.providerRequest], .error (.runtimeError (dsCallErrorMsg resp))) := by
    simp [dashscopeChatCall, hvalid, herr]
  refine ⟨heq, ?_, ?_, ?_, ?_, ?_⟩
  · exact ⟨"Request id: ".data,
      (",\n" ++ "Status code: " ++ toString resp.status_code ++ ",\n" ++
        "Error code: " ++ resp.code ++ ",\n" ++
        "Error message: " ++ resp.message ++ ".").data,
      by simp [dsCallErrorMsg, String.data_append, List.append_assoc]⟩
  · exact ⟨("Request id: " ++ resp.request_id ++ ",\n" ++ "Status code: ").data,
      (",\n" ++ "Error code: " ++ resp.code ++ ",\n" ++
        "Error message: " ++ resp.message ++ ".").data,
      by simp [dsCallErrorMsg, String.data_append, List.append_assoc]⟩
  · exact ⟨("Request id: " ++ resp.request_id ++ ",\n" ++ "Status code: " ++
        toString resp.status_code ++ ",\n" ++ "Error code: ").data,
      (",\n" ++ "Error message: " ++ resp.message ++ ".").data,
      by simp [dsCallErrorMsg, String.data_append, List.append_assoc]⟩
  · exact ⟨("Request id: " ++ resp.request_id ++ ",\n" ++ "Status code: " ++
        toString resp.status_code ++ ",\n" ++ "Error code: " ++ resp.code ++ ",\n" ++
        "Error message: ").data,
      ".".data,
      by simp [dsCallErrorMsg, String.data_append, List.append_assoc]⟩
  · intro e he
    rw [heq] at he
    rcases List.mem_singleton.mp he with rfl
    exact ⟨fun h => CallEvent.noConfusion h, fun a b c d h => CallEvent.noConfusion h⟩

theorem dashscope_nonstream_provider_error_witness :
    dashscopeChatCall (.ofList [⟨["role", "content"]⟩]) ⟨500, "rid", "ec", "em", "", 0, 0⟩ =
      ([CallEvent.providerRequest],
       .error (.runtimeError (dsCallErrorMsg ⟨500, "rid", "ec", "em", "", 0, 0⟩)))
    ∧ ("rid" : String).data <:+: (dsCallErrorMsg ⟨500, "rid", "ec", "em", "", 0, 0⟩).data
    ∧ (toString (500 : Nat)).data <:+: (dsCallErrorMsg ⟨500, "rid", "ec", "em", "", 0, 0⟩).data
    ∧ ("ec" : String).data <:+: (dsCallErrorMsg ⟨500, "rid", "ec", "em", "", 0, 0⟩).data
    ∧ ("em" : String).data <:+: (dsCallErrorMsg ⟨500, "rid", "ec", "em", "", 0, 0⟩).data
    ∧ (∀ e ∈ (dashscopeChatCall (.ofList [⟨["role", "content"]⟩])
          ⟨500, "rid", "ec", "em", "", 0, 0⟩).1,
        e ≠ CallEvent.saveInvocation
        ∧ ∀ a b c d, e ≠ CallEvent.monitorUpdate a b c d) :=
  dashscope_nonstream_provider_error (.ofList [⟨["role", "content"]⟩])
    ⟨500, "rid", "ec", "em", "", 0, 0⟩ (by decide) (by decide)

/-- C8.  For every successful embedding call — one whose response holds
at least one embedding, as every embedding of a non-empty input does —
the wrapper returns the list of embedding vectors from the response:
the ZhipuAI wrapper maps `_["embedding"]` over `response_json["data"]`
(the singleton shape, one embedding in `data`, goes through the same
well-formed list path), and the DashScope wrapper maps it over
`response.output["embeddings"]` on any OK-status response. -/
theorem embedding_call_vectors (data : List EmbeddingItem)
    (resp : DSEmbResponse)
    (hd : data ≠ [])
    (hok : resp.status_code = httpOK) :
    zhipuEmbeddingCall data = .ok (data.map (·.embedding))
    ∧ dashscopeTextEmbeddingCall resp = .ok (resp.embeddings.map (·.embedding)) := by
  constructor
  · rw [zhipuEmbeddingCall, if_neg (by simpa using List.length_pos.mpr hd |>.ne')]
  · rw [dashscopeTextEmbeddingCall, if_neg (by simp [hok])]

theorem embedding_call_vectors_witness :
    zhipuEmbeddingCall [⟨[1, 2, 3]⟩] = .ok ([(⟨[1, 2, 3]⟩ : EmbeddingItem)].map (·.embedding))
    ∧ dashscopeTextEmbeddingCall ⟨200, "", "", "", [⟨[4, 5]⟩]⟩ =
        .ok (([⟨[4, 5]⟩] : List EmbeddingItem).map (·.embedding)) :=
  embedding_call_vectors [⟨[1, 2, 3]⟩] ⟨200, "", "", "", [⟨[4, 5]⟩]⟩ (by decide) (by decide)

/-- C1.  When every attempt of the SQL side effect raises,
`SQLAgent.reply` performs the attempt exactly `max_retries = 3` times
and prints the fixed failure fallback notice — but the final
`return msg` then references the local `msg`, which was only ever
assigned inside the succeeded `try` body, so the call raises
`UnboundLocalError` instead of returning: the code contradicts the
claim's (and the spec's) "never raises out of the reply call". -/
theorem sql_reply_all_fail_unbound_msg (attemptFn : Nat → Except Unit String)
    (name : String) (h : ∀ i, attemptFn i = .error ()) :
    sqlAgentReplyInDomain attemptFn sql_max_retries name =
      { attempts := 3, fallback_printed := true,
        returned := .error .unboundLocalError } := by
  simp [sqlAgentReplyInDomain, sql_max_retries, sqlRetryLoop, h 0, h 1, h 2]

theorem sql_reply_all_fail_unbound_msg_witness :
    sqlAgentReplyInDomain (fun _ => .error ()) sql_max_retries "sql agent" =
      { attempts := 3, fallback_printed := true,
        returned := .error .unboundLocalError } :=
  sql_reply_all_fail_unbound_msg (fun _ => .error ()) "sql agent" (fun _ => rfl)

/-- C5.  For a CodeActAgent whose model response always contains an
`[execute]...[/execute]` block, replying to a user message performs
exactly `n_max_executions = 5` code executions and exactly 5 model
calls (so no further model call happens after the ceiling is reached),
and appends the fixed maximum-executions message as the last memory
entry before terminating (the `assert` passes and nothing is raised). -/
theorem codeact_execution_ceiling (model : List Msg → String)
    (exec : String → ServiceResponse) (agentName sysContent : String) (x : Msg)
    (hx : x.role = "user")
    (hm : ∀ mem, (extractExecuteBlock (model mem)).isSome) :
    ∃ mem', codeact_reply model exec agentName sysContent x = .ok (mem', 5, 5)
      ∧ mem'.getLast? = some codeact_max_exec_msg := by
  have hl : lastRole [{ name := "system", role := "system", content := sysContent }, x]
      = some "user" := by
    simp [lastRole, hx]
  obtain ⟨mem', heq, hlast⟩ :=
    codeactLoop_always_exec model exec agentName hm (5 + 2)
      [{ name := "system", role := "system", content := sysContent }, x] 0 0
      (by omega) (by omega) hl
  refine ⟨mem' ++ [codeact_max_exec_msg], ?_, by simp [List.getLast?_concat]⟩
  simp only [codeact_reply, codeact_n_max_executions, heq]
  simp [hlast]

theorem codeact_execution_ceiling_witness :
    ∃ mem', codeact_reply (fun _ => "[execute] 1+1 [/execute]")
        (fun _ => ⟨true, "2"⟩) "assistant" "" ⟨"user", "user", "hi"⟩ = .ok (mem', 5, 5)
      ∧ mem'.getLast? = some codeact_max_exec_msg := by
  have hm : ∀ mem : List Msg,
      (extractExecuteBlock ((fun _ : List Msg => "[execute] 1+1 [/execute]") mem)).isSome := by
    intro mem
    show (extractExecuteBlock "[execute] 1+1 [/execute]").isSome = true
    decide
  exact codeact_execution_ceiling (fun _ => "[execute] 1+1 [/execute]")
    (fun _ => ⟨true, "2"⟩) "assistant" "" ⟨"user", "user", "hi"⟩ rfl hm

end Agentscope
